import Mathlib

/-!
Verification of the R3M performance load tester
(`scripts/performance_loadtest.py`) against its design specification.

The Python source is shallowly embedded below.  Conventions:

* Wall-clock times and the float-valued metric fields are idealized as `ℚ`
  (the claims under verification are about the branch structure and the
  exact arithmetic of the code, not about IEEE-754 rounding).
* `random.randint` / `random.choices` are modelled by oracle streams
  (`ℕ → ℕ` functions) supplied as parameters: `randint lo hi` becomes
  `lo + x % (hi + 1 - lo)` for the next oracle value `x`, which ranges over
  exactly the inclusive interval `[lo, hi]` as in Python.
* The outcome of one HTTP round trip (timing, status, parsed body or not,
  network failure) is an explicit `RequestEnv` value; a whole run takes an
  oracle `ℕ → ℕ → RequestEnv` (batch index, position in batch) describing
  the environment seen by each issued request.
* Python exceptions are `Except String`; `asyncio.gather(...,
  return_exceptions=True)` returns one outcome (value or captured
  exception) per task, embedded as a `List (Except String _)`.
-/

namespace R3M

/-! ### Python-styled numeric helpers -/

/-- Python `int()` applied to a rational: truncation toward zero
(`Int.tdiv` is truncated division). -/
def pyTrunc (q : ℚ) : ℤ :=
  Int.tdiv q.num (q.den : ℤ)

/-- Python `random.randint lo hi` draws uniformly from the inclusive range
`[lo, hi]`; the drawn value is determined here by the oracle value `x`. -/
def pyRandint (lo hi : ℕ) (x : ℕ) : ℕ :=
  lo + x % (hi + 1 - lo)

/-! ### DocumentGenerator: `create_test_document` (source lines 65-85) -/

/-- The fixed vocabulary of `create_test_document`. -/
def words : List String :=
  ["document", "processing", "system", "performance", "optimization",
   "chunking", "tokenization", "metadata", "analysis", "quality",
   "assessment", "parallel", "threading", "memory", "efficiency",
   "throughput", "latency", "benchmark", "profiling", "monitoring"]

/-- One iteration of the sentence loop: `random.randint(5, 25)` words drawn
with replacement from `words` (indices from the oracle `w`), space-joined,
then `". "` appended.  Documents are `List Char`; every vocabulary word is
ASCII, so character counts and byte counts coincide. -/
def mkSentence (r : ℕ → ℕ) (w : ℕ → ℕ → ℕ) (n : ℕ) : List Char :=
  let k := pyRandint 5 25 (r n)
  (List.intercalate [' ']
    ((List.range k).map fun i => (words.getD (w n i % words.length) "").toList))
    ++ ['.', ' ']

/-- The `while len(document) < target_size` loop of `create_test_document`,
made structurally recursive on an explicit iteration budget `fuel`.  Each
iteration appends one sentence (length ≥ 2), so any `fuel ≥ target` is
enough for the loop to reach its exit condition exactly as the source loop
does; `create_test_document` invokes it with such a budget. -/
def docLoop (r : ℕ → ℕ) (w : ℕ → ℕ → ℕ) (target : ℕ) :
    ℕ → List Char → ℕ → List Char
  | 0, doc, _ => doc
  | fuel + 1, doc, n =>
    if doc.length < target then
      docLoop r w target fuel (doc ++ mkSentence r w n) (n + 1)
    else doc

/-- Embeds `create_test_document` (lines 65-85): accumulate random
sentences until the document reaches `size_kb * 1024` characters, then
truncate to exactly that size (`document[:target_size]`). -/
def create_test_document (r : ℕ → ℕ) (w : ℕ → ℕ → ℕ) (size_kb : ℕ) : List Char :=
  let target := size_kb * 1024
  (docLoop r w target target [] 0).take target

/-! ### Corpus creation: `create_test_files` (source lines 87-104) -/

/-- The five corpus size classes (KB), from line 90. -/
def sizes : List ℕ := [1, 5, 10, 25, 50]

/-- Filename used for corpus entry `i` of size `size` KB (line 93).  Note
that it depends only on the enumeration index and the size class — not on
which session is writing. -/
def testFileName (i : ℕ) (size : ℕ) : String :=
  "data/loadtest_doc_" ++ Nat.repr i ++ "_" ++ Nat.repr size ++ "kb.txt"

/-- The filenames produced by one call of `create_test_files`. -/
def test_file_names : List String :=
  sizes.enum.map fun p => testFileName p.1 p.2

/-- Embeds `create_test_files` (lines 87-104): for each size class,
generate a document and write it to the shared `data/` staging directory.
The result is the list of performed writes `(filename, content)`, in
order; the function returns the filenames.  The oracle families `r`, `w`
give each file generation its own slice of the random stream. -/
def create_test_files (r : ℕ → ℕ → ℕ) (w : ℕ → ℕ → ℕ → ℕ) :
    List (String × List Char) :=
  sizes.enum.map fun p => (testFileName p.1 p.2, create_test_document (r p.1) (w p.1) p.2)

/-! ### Data model: `ProcessingMetrics` (source lines 34-46) -/

/-- Embeds the `ProcessingMetrics` dataclass. -/
structure ProcessingMetrics where
  operation_id : String
  total_time : ℚ
  processing_time : ℚ
  chunking_time : ℚ
  total_chunks : ℕ
  successful_chunks : ℕ
  avg_quality_score : ℚ
  avg_information_density : ℚ
  memory_usage_mb : ℚ
  throughput_per_second : ℚ
deriving DecidableEq

/-- A parsed JSON response body: each field records the value under the
corresponding key if that key is present (`Option`), mirroring
`result.get(..., default)` reads.  The top-level `success` flag of the
service contract is carried so that theorems can speak about it. -/
structure ResponseBody where
  success : Option Bool
  processing_time : Option ℚ
  chunking_time : Option ℚ
  total_chunks : Option ℕ
  successful_chunks : Option ℕ
  avg_quality_score : Option ℚ
  avg_information_density : Option ℚ
deriving DecidableEq

/-- Everything the outside world contributes to one `process_document`
call: the wall-clock readings, whether the socket/file layer raised, the
HTTP status, the parsed body (`none` = body was not valid JSON), and the
byte length of the file content that was read and uploaded. -/
structure RequestEnv where
  start : ℚ
  stop : ℚ
  netError : Bool
  status : ℕ
  body : Option ResponseBody
  fileSize : ℕ
deriving DecidableEq

/-! ### RequestExecutor: `process_document` (source lines 106-158) -/

/-- The integer millisecond stamp `int(start_time * 1000)` from which the
operation id is built (line 148). -/
def opMs (start : ℚ) : ℤ :=
  pyTrunc (start * 1000)

/-- The operation id string `f"op_{int(start_time * 1000)}"` (line 148);
the f-string renders the integer in decimal, i.e. `Int.repr`. -/
def opId (start : ℚ) : String :=
  "op_" ++ Int.repr (opMs start)

/-- Embeds `process_document` (lines 106-158).  A network/file-layer
exception, `response.raise_for_status()` (which raises exactly for
status ≥ 400), or an unparseable JSON body produce an exception, captured
by the caller's `asyncio.gather` as an `Except.error`.  Otherwise the
metrics record is built from the parsed body with `.get` defaults; the
`success` field of the body is never consulted. -/
def process_document (e : RequestEnv) : Except String ProcessingMetrics :=
  if e.netError then .error "network error"
  else if 400 ≤ e.status then .error ("HTTP " ++ Nat.repr e.status)
  else
    match e.body with
    | none => .error "malformed JSON body"
    | some result =>
      let total_time := e.stop - e.start
      .ok
        { operation_id := opId e.start
          total_time := total_time
          processing_time := result.processing_time.getD 0
          chunking_time := result.chunking_time.getD 0
          total_chunks := result.total_chunks.getD 0
          successful_chunks := result.successful_chunks.getD 0
          avg_quality_score := result.avg_quality_score.getD 0
          avg_information_density := result.avg_information_density.getD 0
          memory_usage_mb := (e.fileSize : ℚ) / (1024 * 1024)
          throughput_per_second := if 0 < total_time then 1 / total_time else 0 }

/-- Whether a captured per-request outcome is a failure. -/
def isFailure {ε α : Type} : Except ε α → Bool
  | .ok _ => false
  | .error _ => true

/-! ### BatchRunner: `process_batch` (source lines 160-171) -/

/-- Embeds `process_batch`: one `process_document` task per file, run by
`asyncio.gather(*tasks, return_exceptions=True)`, which yields one outcome
per task in task order, capturing each task's exception as a value so that
no failure cancels the other tasks. -/
def process_batch (envs : List RequestEnv) : List (Except String ProcessingMetrics) :=
  envs.map process_document

/-! ### SessionOrchestrator: `run_concurrent_session` (source lines 173-196) -/

/-- The file list of one batch: `test_files * 2` (line 180), i.e. the
five-file corpus repeated twice. -/
def batch_files : List String :=
  test_file_names ++ test_file_names

/-- Number of requests issued per batch. -/
def batch_size : ℕ := batch_files.length

/-- The request environments seen by batch `b`: one per position in
`batch_files`, supplied by the run oracle `env`. -/
def batch_envs (env : ℕ → ℕ → RequestEnv) (b : ℕ) : List RequestEnv :=
  (List.range batch_size).map (env b)

/-- The outcomes of batch `b`. -/
def batch_outcomes (env : ℕ → ℕ → RequestEnv) (b : ℕ) :
    List (Except String ProcessingMetrics) :=
  process_batch (batch_envs env b)

/-- What one session accumulates: the metrics appended to the shared
`self.metrics` store, the number of failures logged by
`logger.error("Processing failed: ...")`, and the number of requests
issued. -/
structure SessionResult where
  metrics : List ProcessingMetrics
  failures : ℕ
  requests : ℕ
deriving DecidableEq

/-- One iteration of the sequential batch loop (lines 184-196): gather the
batch's outcomes, append each `ProcessingMetrics` value to the shared
store and log each captured exception. -/
def session_step (env : ℕ → ℕ → RequestEnv) (acc : SessionResult) (b : ℕ) :
    SessionResult :=
  let outcomes := batch_outcomes env b
  { metrics := acc.metrics ++ outcomes.filterMap Except.toOption
    failures := acc.failures + (outcomes.filter (fun o => isFailure o)).length
    requests := acc.requests + outcomes.length }

/-- Embeds `run_concurrent_session` (lines 173-196): build
`documents_per_batch` batches (each the corpus repeated twice) and process
them sequentially, accumulating into the shared store. -/
def run_concurrent_session (B : ℕ) (env : ℕ → ℕ → RequestEnv) : SessionResult :=
  (List.range B).foldl (session_step env) ⟨[], 0, 0⟩

/-- All outcomes a session's requests produce, in issue order. -/
def session_outcomes (B : ℕ) (env : ℕ → ℕ → RequestEnv) :
    List (Except String ProcessingMetrics) :=
  (List.range B).flatMap (batch_outcomes env)

/-! ### LoadController: `run_load_test` (source lines 198-218) -/

/-- Embeds the metric accumulation of `run_load_test`: `num_concurrent`
sessions share `self.metrics`; session `s` sees its own request
environments `env s`.  Appends from the cooperatively scheduled sessions
interleave; the shared list is modelled up to one serialization (the
claims proved below are insensitive to the interleaving order). -/
def run_all_sessions (N B : ℕ) (env : ℕ → ℕ → ℕ → RequestEnv) :
    List ProcessingMetrics :=
  (List.range N).foldl (fun acc s => acc ++ (run_concurrent_session B (env s)).metrics) []

/-! ### MetricsAggregator: the statistics calls of `print_results`
(source lines 220-264) -/

/-- Python `statistics.mean` on rationals: raises `StatisticsError` on an
empty sequence, else returns `sum / length`. -/
def pyMean : List ℚ → Except String ℚ
  | [] => .error "mean requires at least one data point"
  | x :: xs => .ok ((x :: xs).sum / ((x :: xs).length : ℚ))

/-- Python builtin `min` on a rational sequence: raises on empty. -/
def pyMinQ : List ℚ → Except String ℚ
  | [] => .error "min() arg is an empty sequence"
  | x :: xs => .ok (xs.foldl min x)

/-- Python builtin `max` on a rational sequence: raises on empty. -/
def pyMaxQ : List ℚ → Except String ℚ
  | [] => .error "max() arg is an empty sequence"
  | x :: xs => .ok (xs.foldl max x)

/-- Python `statistics.mean` on an integer sequence (the result is exact,
a rational). -/
def pyMeanN : List ℕ → Except String ℚ
  | [] => .error "mean requires at least one data point"
  | x :: xs => .ok (((x :: xs).sum : ℚ) / ((x :: xs).length : ℚ))

/-- Python builtin `min` on an integer sequence: raises on empty. -/
def pyMinN : List ℕ → Except String ℕ
  | [] => .error "min() arg is an empty sequence"
  | x :: xs => .ok (xs.foldl min x)

/-- Python builtin `max` on an integer sequence: raises on empty. -/
def pyMaxN : List ℕ → Except String ℕ
  | [] => .error "max() arg is an empty sequence"
  | x :: xs => .ok (xs.foldl max x)

/-- Python division: raises `ZeroDivisionError` on a zero denominator. -/
def pyDiv (a b : ℚ) : Except String ℚ :=
  if b = 0 then .error "division by zero" else .ok (a / b)

/-- The statistics printed by `print_results` (lines 238-264). -/
structure Stats where
  count : ℕ
  mean_total_time : ℚ
  min_total_time : ℚ
  max_total_time : ℚ
  mean_processing_time : ℚ
  min_processing_time : ℚ
  max_processing_time : ℚ
  mean_chunking_time : ℚ
  min_chunking_time : ℚ
  max_chunking_time : ℚ
  mean_throughput : ℚ
  min_throughput : ℚ
  max_throughput : ℚ
  mean_total_chunks : ℚ
  min_total_chunks : ℕ
  max_total_chunks : ℕ
  mean_successful_chunks : ℚ
  min_successful_chunks : ℕ
  max_successful_chunks : ℕ
  success_rate : ℚ
deriving DecidableEq

/-- The statistics computation of `print_results` (lines 230-264): field
lists are projected from the collected metrics, then
`statistics.mean` / `min` / `max` are applied to each and the success rate
is `len([m for m in metrics if m.successful_chunks > 0]) / len(metrics)
* 100`.  Any raised exception is an `Except.error`. -/
def computeStats (ms : List ProcessingMetrics) : Except String Stats := do
  let total_times := ms.map (fun m => m.total_time)
  let processing_times := ms.map (fun m => m.processing_time)
  let chunking_times := ms.map (fun m => m.chunking_time)
  let total_chunks := ms.map (fun m => m.total_chunks)
  let successful_chunks := ms.map (fun m => m.successful_chunks)
  let throughputs := ms.map (fun m => m.throughput_per_second)
  let meanTT ← pyMean total_times
  let minTT ← pyMinQ total_times
  let maxTT ← pyMaxQ total_times
  let meanPT ← pyMean processing_times
  let minPT ← pyMinQ processing_times
  let maxPT ← pyMaxQ processing_times
  let meanCT ← pyMean chunking_times
  let minCT ← pyMinQ chunking_times
  let maxCT ← pyMaxQ chunking_times
  let meanTP ← pyMean throughputs
  let minTP ← pyMinQ throughputs
  let maxTP ← pyMaxQ throughputs
  let meanTC ← pyMeanN total_chunks
  let minTC ← pyMinN total_chunks
  let maxTC ← pyMaxN total_chunks
  let meanSC ← pyMeanN successful_chunks
  let minSC ← pyMinN successful_chunks
  let maxSC ← pyMaxN successful_chunks
  let rate ← pyDiv (((ms.filter fun m => 0 < m.successful_chunks).length : ℚ)) ((ms.length : ℚ))
  pure
    { count := ms.length
      mean_total_time := meanTT, min_total_time := minTT, max_total_time := maxTT
      mean_processing_time := meanPT, min_processing_time := minPT
      max_processing_time := maxPT
      mean_chunking_time := meanCT, min_chunking_time := minCT
      max_chunking_time := maxCT
      mean_throughput := meanTP, min_throughput := minTP, max_throughput := maxTP
      mean_total_chunks := meanTC, min_total_chunks := minTC
      max_total_chunks := maxTC
      mean_successful_chunks := meanSC, min_successful_chunks := minSC
      max_successful_chunks := maxSC
      success_rate := rate * 100 }

/-! ### ResultsExporter: `export_results_to_csv` (source lines 269-299) -/

/-- The fixed CSV column order (lines 277-281). -/
def fieldnames : List String :=
  ["operation_id", "total_time", "processing_time", "chunking_time",
   "total_chunks", "successful_chunks", "avg_quality_score",
   "avg_information_density", "memory_usage_mb", "throughput_per_second"]

/-- The CSV file written by one `export_results_to_csv` call: a
timestamped name, the header row, and one row per collected metric (rows
carry the metric whose ten fields are written in `fieldnames` order). -/
structure CsvFile where
  filename : String
  header : List String
  rows : List ProcessingMetrics
deriving DecidableEq

/-- Embeds `export_results_to_csv` (lines 269-299): writes the file
`data/loadtest_results_{int(time.time())}.csv` with the header and one row
per metric.  `now` is the `time.time()` reading. -/
def export_results_to_csv (now : ℚ) (ms : List ProcessingMetrics) : CsvFile :=
  { filename := "data/loadtest_results_" ++ Int.repr (pyTrunc now) ++ ".csv"
    header := fieldnames
    rows := ms }

/-- Embeds `print_results` (lines 220-267).  Empty store: log
`"No metrics collected during test"` and return at once — the distinct
no-data outcome `(none, none)`, with no statistic evaluated and no export.
Non-empty store: compute and print the statistics, then export the CSV.
An exception raised by a statistics call would propagate (`Except`). -/
def print_results (ms : List ProcessingMetrics) (now : ℚ) :
    Except String (Option Stats × Option CsvFile) :=
  if ms.isEmpty then .ok (none, none)
  else do
    let s ← computeStats ms
    pure (some s, some (export_results_to_csv now ms))

/-! ### `main` (source lines 302-347) -/

/-- How the `asyncio.run(load_tester.run_load_test())` call in `main`
terminates: interrupted by `KeyboardInterrupt`, aborted by some other
exception, or run to completion. -/
inductive RunEvent
  | interrupted
  | fatalError (msg : String)
  | normal
deriving DecidableEq

/-- Embeds the `try/except` dispatch of `main` (lines 339-347) applied to
the metrics accumulated when the run ends.  A `KeyboardInterrupt` aborts
`asyncio.run` before `run_load_test` reaches `print_results`; `main`
catches it, logs, and falls through to `return 0` — nothing is summarized
or exported.  Any other exception yields `return 1`.  A completed run
reports via `print_results`; an exception escaping `print_results` would
be caught by `except Exception` (`return 1`).  The result is
`(exit code, printed summary, exported file)`. -/
def main_dispatch (ev : RunEvent) (ms : List ProcessingMetrics) (now : ℚ) :
    ℕ × Option Stats × Option CsvFile :=
  match ev with
  | .interrupted => (0, none, none)
  | .fatalError _ => (1, none, none)
  | .normal =>
    match print_results ms now with
    | .error _ => (1, none, none)
    | .ok r => (0, r.1, r.2)

/-! ### Decimal decoding, a left inverse of `Nat.repr` / `Int.repr`

Used to prove that the decimal rendering inside `opId` is injective. -/

/-- Numeric value of a decimal digit character. -/
def digitVal (c : Char) : ℕ := c.toNat - 48

/-- Value of a most-significant-first decimal digit string. -/
def decodeDigits (l : List Char) : ℕ :=
  l.foldl (fun a c => 10 * a + digitVal c) 0

/-- Reads back the integer rendered by `Int.repr`: a leading `'-'` negates
the decoded digit tail. -/
def decodeIntChars (l : List Char) : ℤ :=
  if l.head? = some '-' then -(decodeDigits l.tail : ℤ) else (decodeDigits l : ℤ)

/-! ### Concrete inputs used by witnesses and counterexamples -/

/-- A placeholder record used only as the default of `List.getD`. -/
def pm0 : ProcessingMetrics :=
  { operation_id := "", total_time := 0, processing_time := 0, chunking_time := 0
    total_chunks := 0, successful_chunks := 0, avg_quality_score := 0
    avg_information_density := 0, memory_usage_mb := 0, throughput_per_second := 0 }

/-- A parsed body carrying none of the optional metric keys. -/
def rbEmpty : ResponseBody :=
  { success := none, processing_time := none, chunking_time := none
    total_chunks := none, successful_chunks := none
    avg_quality_score := none, avg_information_density := none }

/-- A 200 response whose parseable JSON body says `success: false`. -/
def c2env : RequestEnv :=
  { start := 0, stop := 1, netError := false, status := 200
    body := some { rbEmpty with success := some false }, fileSize := 0 }

/-- A run environment in which all ten requests of the single batch start
at the same wall-clock reading (5 s, the same millisecond) but finish at
different times; all succeed. -/
def c3env : ℕ → ℕ → RequestEnv := fun _ j =>
  { start := 5, stop := 5 + ((j : ℚ) + 1), netError := false, status := 200
    body := some rbEmpty, fileSize := 0 }

/-- The metrics collected by a one-batch session under `c3env`. -/
def c3metrics : List ProcessingMetrics :=
  (run_concurrent_session 1 c3env).metrics

/-- A successful request starting at second 0. -/
def c3wEnvA : RequestEnv :=
  { start := 0, stop := 1, netError := false, status := 200
    body := some rbEmpty, fileSize := 0 }

/-- A successful request starting at second 1. -/
def c3wEnvB : RequestEnv :=
  { start := 1, stop := 2, netError := false, status := 200
    body := some rbEmpty, fileSize := 0 }

/-- The record produced for `c3wEnvA`. -/
def c3wA : ProcessingMetrics := (process_document c3wEnvA).toOption.getD pm0

/-- The record produced for `c3wEnvB`. -/
def c3wB : ProcessingMetrics := (process_document c3wEnvB).toOption.getD pm0

/-- A sample collected record (as produced by a 1-second successful
request). -/
def pmSample : ProcessingMetrics :=
  { operation_id := "op_0", total_time := 1, processing_time := 0, chunking_time := 0
    total_chunks := 1, successful_chunks := 1, avg_quality_score := 0
    avg_information_density := 0, memory_usage_mb := 0, throughput_per_second := 1 }

/-- A request whose response is HTTP 500 (body unread). -/
def failEnv : RequestEnv :=
  { start := 0, stop := 0, netError := false, status := 500
    body := none, fileSize := 0 }

/-- A successful instantaneous request: `stop = start`, so
`total_time = 0`. -/
def c7env : RequestEnv :=
  { start := 3, stop := 3, netError := false, status := 200
    body := some rbEmpty, fileSize := 0 }

/-- The record produced for `c7env`. -/
def c7m : ProcessingMetrics := (process_document c7env).toOption.getD pm0

/-! ## Theorems -/

/-! ### Decimal rendering is injective -/

theorem digitVal_digitChar : ∀ k, k < 10 → digitVal (Nat.digitChar k) = k := by
  decide

theorem digitChar_ne_dash : ∀ k, k < 10 → Nat.digitChar k ≠ '-' := by
  decide

theorem toDigitsCore_acc (fuel : ℕ) :
    ∀ (n : ℕ) (ds : List Char),
      Nat.toDigitsCore 10 fuel n ds = Nat.toDigitsCore 10 fuel n [] ++ ds := by
  induction fuel with
  | zero => intro n ds; simp [Nat.toDigitsCore]
  | succ f ih =>
    intro n ds
    simp only [Nat.toDigitsCore]
    by_cases h : n / 10 = 0
    · simp [h]
    · simp only [h, if_false]
      rw [ih (n / 10) ((n % 10).digitChar :: ds), ih (n / 10) [(n % 10).digitChar]]
      simp

theorem decodeDigits_append (l : List Char) (c : Char) :
    decodeDigits (l ++ [c]) = 10 * decodeDigits l + digitVal c := by
  simp [decodeDigits, List.foldl_append]

theorem decode_toDigitsCore (fuel : ℕ) :
    ∀ n, n < fuel → decodeDigits (Nat.toDigitsCore 10 fuel n []) = n := by
  induction fuel with
  | zero => intro n h; exact absurd h (Nat.not_lt_zero n)
  | succ f ih =>
    intro n h
    simp only [Nat.toDigitsCore]
    by_cases h10 : n / 10 = 0
    · have hn : n < 10 := by omega
      simp [h10, decodeDigits, Nat.mod_eq_of_lt hn, digitVal_digitChar n hn]
    · simp only [h10, if_false]
      rw [toDigitsCore_acc, decodeDigits_append]
      have hlt : n / 10 < f := by omega
      rw [ih (n / 10) hlt, digitVal_digitChar (n % 10) (Nat.mod_lt _ (by norm_num))]
      omega

theorem toDigitsCore_head (fuel : ℕ) :
    ∀ n, 0 < fuel → ∃ k rest,
      Nat.toDigitsCore 10 fuel n [] = Nat.digitChar k :: rest ∧ k < 10 := by
  induction fuel with
  | zero => intro n h; exact absurd h (Nat.lt_irrefl 0)
  | succ f ih =>
    intro n _
    simp only [Nat.toDigitsCore]
    by_cases h10 : n / 10 = 0
    · exact ⟨n % 10, [], by simp [h10], Nat.mod_lt _ (by norm_num)⟩
    · simp only [h10, if_false]
      cases f with
      | zero =>
        exact ⟨n % 10, [], by simp [Nat.toDigitsCore], Nat.mod_lt _ (by norm_num)⟩
      | succ f2 =>
        obtain ⟨k, rest, heq, hk⟩ := ih (n / 10) (Nat.succ_pos f2)
        refine ⟨k, rest ++ [(n % 10).digitChar], ?_, hk⟩
        rw [toDigitsCore_acc, heq]
        simp

theorem decode_natRepr (n : ℕ) : decodeDigits (Nat.repr n).data = n :=
  decode_toDigitsCore (n + 1) n (Nat.lt_succ_self n)

theorem natRepr_head (n : ℕ) :
    ∃ k rest, (Nat.repr n).data = Nat.digitChar k :: rest ∧ k < 10 :=
  toDigitsCore_head (n + 1) n (Nat.succ_pos n)

theorem decodeIntChars_intRepr (i : ℤ) : decodeIntChars (Int.repr i).data = i := by
  cases i with
  | ofNat m =>
    obtain ⟨k, rest, heq, hk⟩ := natRepr_head m
    have hms : (Int.repr (Int.ofNat m)).data = (Nat.repr m).data := rfl
    rw [decodeIntChars, hms, heq]
    have hne : Nat.digitChar k ≠ '-' := digitChar_ne_dash k hk
    simp only [List.head?, Option.some.injEq]
    rw [if_neg (by simpa using hne)]
    rw [← heq, decode_natRepr m]
    rfl
  | negSucc m =>
    have hd : (Int.repr (Int.negSucc m)).data = '-' :: (Nat.repr (m + 1)).data := by
      show (("-" : String) ++ Nat.repr (m + 1)).data = _
      rw [String.data_append]; rfl
    rw [decodeIntChars, hd]
    simp only [List.head?, List.tail_cons, if_pos rfl]
    rw [decode_natRepr (m + 1)]
    simp [Int.negSucc_eq]

theorem intReprData_inj (i j : ℤ) (h : (Int.repr i).data = (Int.repr j).data) :
    i = j := by
  rw [← decodeIntChars_intRepr i, ← decodeIntChars_intRepr j, h]

theorem opId_inj (s t : ℚ) (h : opId s = opId t) : opMs s = opMs t := by
  apply intReprData_inj
  have hd := congrArg String.data h
  rw [opId, opId, String.data_append, String.data_append] at hd
  exact List.append_cancel_left hd

/-! ### Inversion of `process_document` on success -/

theorem process_document_ok (e : RequestEnv) (m : ProcessingMetrics)
    (h : process_document e = .ok m) :
    e.netError = false ∧ e.status < 400 ∧ ∃ rb, e.body = some rb ∧
      m = { operation_id := opId e.start
            total_time := e.stop - e.start
            processing_time := rb.processing_time.getD 0
            chunking_time := rb.chunking_time.getD 0
            total_chunks := rb.total_chunks.getD 0
            successful_chunks := rb.successful_chunks.getD 0
            avg_quality_score := rb.avg_quality_score.getD 0
            avg_information_density := rb.avg_information_density.getD 0
            memory_usage_mb := (e.fileSize : ℚ) / (1024 * 1024)
            throughput_per_second :=
              if 0 < e.stop - e.start then 1 / (e.stop - e.start) else 0 } := by
  unfold process_document at h
  by_cases hne : e.netError = true
  · simp [hne] at h
  · by_cases hs : 400 ≤ e.status
    · simp [hne, hs] at h
    · cases hb : e.body with
      | none => simp [hne, hs, hb] at h
      | some rb =>
        simp only [hne, hs, hb, if_false, if_neg, Bool.false_eq_true] at h
        refine ⟨by simpa using hne, by omega, rb, rfl, ?_⟩
        cases h
        rfl

/-! ### Accounting for one session's batch loop -/

theorem except_partition_length {ε α : Type} (l : List (Except ε α)) :
    (l.filterMap Except.toOption).length
      + (l.filter (fun o => isFailure o)).length = l.length := by
  induction l with
  | nil => rfl
  | cons x xs ih =>
    cases x <;> (simp [Except.toOption, isFailure] at ih ⊢; omega)

theorem session_foldl_spec (env : ℕ → ℕ → RequestEnv) (l : List ℕ)
    (acc : SessionResult) :
    l.foldl (session_step env) acc =
      { metrics := acc.metrics
          ++ (l.flatMap (batch_outcomes env)).filterMap Except.toOption
        failures := acc.failures
          + ((l.flatMap (batch_outcomes env)).filter (fun o => isFailure o)).length
        requests := acc.requests + (l.flatMap (batch_outcomes env)).length } := by
  induction l generalizing acc with
  | nil => simp
  | cons b bs ih =>
    rw [List.foldl_cons, ih]
    simp [session_step, Nat.add_assoc, List.append_assoc]

theorem run_session_spec (B : ℕ) (env : ℕ → ℕ → RequestEnv) :
    run_concurrent_session B env =
      { metrics := (session_outcomes B env).filterMap Except.toOption
        failures := ((session_outcomes B env).filter (fun o => isFailure o)).length
        requests := (session_outcomes B env).length } := by
  rw [run_concurrent_session, session_foldl_spec, session_outcomes]
  simp

theorem batch_outcomes_length (env : ℕ → ℕ → RequestEnv) (b : ℕ) :
    (batch_outcomes env b).length = batch_size := by
  simp [batch_outcomes, process_batch, batch_envs]

theorem session_outcomes_length (B : ℕ) (env : ℕ → ℕ → RequestEnv) :
    (session_outcomes B env).length = B * batch_size := by
  rw [session_outcomes, List.length_flatMap]
  have : List.map (List.length ∘ batch_outcomes env) (List.range B)
      = List.replicate B batch_size := by
    refine List.eq_replicate_iff.mpr ⟨by simp, ?_⟩
    intro x hx
    obtain ⟨b, _, rfl⟩ := List.mem_map.mp hx
    exact batch_outcomes_length env b
  rw [this, List.sum_replicate, smul_eq_mul]

theorem filterMap_toOption_nil {ε α : Type} (l : List (Except ε α))
    (h : ∀ x ∈ l, isFailure x = true) :
    l.filterMap Except.toOption = [] := by
  induction l with
  | nil => rfl
  | cons x xs ih =>
    cases x with
    | ok a => exact absurd (h _ (List.mem_cons_self _ _)) (by simp [isFailure])
    | error b =>
      simpa [Except.toOption] using ih fun y hy => h y (List.mem_cons_of_mem _ hy)

theorem session_metrics_nil (B : ℕ) (env : ℕ → ℕ → RequestEnv)
    (h : ∀ b j, isFailure (process_document (env b j)) = true) :
    (run_concurrent_session B env).metrics = [] := by
  rw [run_session_spec]
  apply filterMap_toOption_nil
  intro x hx
  rw [session_outcomes] at hx
  obtain ⟨b, _, hb⟩ := List.mem_flatMap.mp hx
  rw [batch_outcomes, process_batch, batch_envs, List.map_map] at hb
  obtain ⟨j, _, rfl⟩ := List.mem_map.mp hb
  exact h b j

theorem bind_pure_map {ε α β : Type} (x : Except ε α) (f : α → β) :
    (x >>= fun a => pure (f a) : Except ε β) = Except.map f x := by
  cases x <;> rfl

/-! ### Claims -/

/-- C1: a session configured with `B = documents_per_batch` over the fixed
corpus of `K = 5` size classes, repeated `R = 2` times per batch, issues
exactly `B × K × R` processing requests, and its successful plus failed
request counts equal `B × K × R`. -/
theorem claim1_session_request_count (B : ℕ) (env : ℕ → ℕ → RequestEnv) :
    sizes.length = 5 ∧ batch_size = sizes.length * 2 ∧
    (run_concurrent_session B env).requests = B * (sizes.length * 2) ∧
    (run_concurrent_session B env).metrics.length
      + (run_concurrent_session B env).failures = B * (sizes.length * 2) := by
  have hbs : batch_size = sizes.length * 2 := by decide
  refine ⟨rfl, hbs, ?_, ?_⟩
  · rw [run_session_spec]
    show (session_outcomes B env).length = B * (sizes.length * 2)
    rw [session_outcomes_length, hbs]
  · rw [run_session_spec]
    show ((session_outcomes B env).filterMap Except.toOption).length
      + ((session_outcomes B env).filter (fun o => isFailure o)).length
      = B * (sizes.length * 2)
    rw [except_partition_length, session_outcomes_length, hbs]

/-- C2 (amended): a request fails exactly when the socket/file layer
raises, the HTTP status is ≥ 400 (what `raise_for_status` checks), or the
body is not parseable JSON; the `success` field of the body is never
examined, so a parseable response below status 400 yields a
`ProcessingMetrics` record even when it lacks `success: true`. -/
theorem claim2_failure_criterion (e : RequestEnv) (rb : ResponseBody)
    (v1 v2 : Option Bool) :
    (isFailure (process_document e) = true ↔
      e.netError = true ∨ 400 ≤ e.status ∨ e.body = none) ∧
    process_document { e with body := some { rb with success := v1 } }
      = process_document { e with body := some { rb with success := v2 } } := by
  constructor
  · unfold process_document
    by_cases hne : e.netError = true
    · simp [hne, isFailure]
    · by_cases hs : 400 ≤ e.status
      · simp [hne, hs, isFailure]
      · cases hb : e.body <;> simp [hne, hs, hb, isFailure]
  · rfl

/-- C2 counterexample: a 200 response whose JSON body carries
`success: false` is NOT treated as a failure — a metrics record is
produced, contradicting the claim that a response lacking `success: true`
yields a `RequestFailed` outcome. -/
theorem claim2_counterexample :
    isFailure (process_document c2env) = false ∧
    c2env.status = 200 ∧
    Option.map (fun rb => rb.success) c2env.body = some (some false) := by
  decide

/-- C4: within a batch, each request's outcome is a function of that
request's own environment alone and `gather(..., return_exceptions=True)`
returns one outcome per issued request, so one failure neither cancels
nor affects the others; across the session, the shared store receives
exactly the successful outcomes in order, failures are counted (logged)
but never stored, and all `B` batches still run. -/
theorem claim4_failure_isolation (B : ℕ) (env : ℕ → ℕ → RequestEnv)
    (envs : List RequestEnv) (j : ℕ) :
    (process_batch envs).length = envs.length ∧
    (process_batch envs)[j]? = Option.map process_document envs[j]? ∧
    (run_concurrent_session B env).metrics
      = (session_outcomes B env).filterMap Except.toOption ∧
    (run_concurrent_session B env).failures
      = ((session_outcomes B env).filter (fun o => isFailure o)).length ∧
    (run_concurrent_session B env).requests = (session_outcomes B env).length := by
  refine ⟨by simp [process_batch], List.getElem?_map process_document envs j, ?_, ?_, ?_⟩
    <;> rw [run_session_spec]

/-- C7: for every record produced by a completed request, the throughput
is `0` when `total_time = 0` and exactly `1 / total_time` when
`total_time > 0` (times idealized as rationals; in the modelled branch
no infinity and no error can arise). -/
theorem claim7_throughput_definition (e : RequestEnv) (m : ProcessingMetrics)
    (h : process_document e = .ok m) :
    (m.total_time = 0 → m.throughput_per_second = 0) ∧
    (0 < m.total_time → m.throughput_per_second = 1 / m.total_time) ∧
    m.throughput_per_second
      = (if 0 < m.total_time then 1 / m.total_time else 0) := by
  obtain ⟨-, -, rb, -, rfl⟩ := process_document_ok e m h
  dsimp only
  exact ⟨fun h0 => by rw [h0]; simp, fun hpos => by rw [if_pos hpos], rfl⟩

/-- C7 witness: an instantaneous successful request (`stop = start`)
yields `total_time = 0` and `throughput_per_second = 0`. -/
theorem claim7_witness : c7m.total_time = 0 ∧ c7m.throughput_per_second = 0 :=
  have h0 : c7m.total_time = 0 := by
    show (3 : ℚ) - 3 = 0
    simp
  ⟨h0, (claim7_throughput_definition c7env c7m rfl).1 h0⟩

/-- C3 (amended): two collected records carry distinct `operation_id`s
exactly when their requests' start readings fall in distinct milliseconds
(`int(start_time * 1000)` differs); requests starting within the same
millisecond receive identical operation ids. -/
theorem claim3_operation_id_millisecond (e1 e2 : RequestEnv)
    (m1 m2 : ProcessingMetrics)
    (h1 : process_document e1 = .ok m1) (h2 : process_document e2 = .ok m2) :
    m1.operation_id = m2.operation_id ↔ opMs e1.start = opMs e2.start := by
  obtain ⟨-, -, rb1, -, rfl⟩ := process_document_ok e1 m1 h1
  obtain ⟨-, -, rb2, -, rfl⟩ := process_document_ok e2 m2 h2
  constructor
  · intro h
    exact opId_inj _ _ h
  · intro h
    show opId e1.start = opId e2.start
    rw [opId, opId, h]

/-- C3 witness: two successful requests starting in distinct milliseconds
(seconds 0 and 1) get distinct operation ids. -/
theorem claim3_witness : c3wA.operation_id ≠ c3wB.operation_id := by
  intro h
  have hms := (claim3_operation_id_millisecond c3wEnvA c3wEnvB c3wA c3wB rfl rfl).mp h
  have : opMs (0 : ℚ) = opMs (1 : ℚ) := hms
  rw [opMs, opMs, pyTrunc, pyTrunc, zero_mul, one_mul] at this
  simp [Rat.num_ofNat, Rat.den_ofNat] at this

/-- C3 counterexample: in a one-batch run in which all ten requests start
at the same wall-clock reading (second 5) and all succeed, the first two
collected records are distinct (`total_time` 1 s vs 2 s) yet share the
operation id — contradicting the claimed pairwise uniqueness of
`operation_id` within a run. -/
theorem claim3_counterexample :
    c3metrics.getD 0 pm0 ≠ c3metrics.getD 1 pm0 ∧
    (c3metrics.getD 0 pm0).operation_id = (c3metrics.getD 1 pm0).operation_id := by
  constructor
  · intro h
    have ht := congrArg ProcessingMetrics.total_time h
    have h0 : (c3metrics.getD 0 pm0).total_time = (5 + (((0 : ℕ) : ℚ) + 1)) - 5 := rfl
    have h1 : (c3metrics.getD 1 pm0).total_time = (5 + (((1 : ℕ) : ℚ) + 1)) - 5 := rfl
    rw [h0, h1] at ht
    norm_num at ht
  · rfl

/-- C5 (amended): a `KeyboardInterrupt` during the run stops the load
test, is caught by `main` (no crash) and yields exit code `0`, but the
run does NOT proceed to reporting: no summary is printed and no CSV is
exported — the partial `RunResult` accumulated up to the interrupt is
discarded. -/
theorem claim5_interrupt_no_report (ms : List ProcessingMetrics) (now : ℚ) :
    main_dispatch RunEvent.interrupted ms now = (0, none, none) :=
  rfl

/-- C5 counterexample: with a non-empty partial `RunResult` accumulated at
the moment of the interrupt, the interrupted run produces no summary and
no exported file (while the same store, had the run completed, would have
been reported) — contradicting the claim that the program still
summarizes and exports the partial `RunResult`. -/
theorem claim5_counterexample :
    main_dispatch RunEvent.interrupted [pmSample] 7 = (0, none, none) ∧
    ([pmSample] : List ProcessingMetrics) ≠ [] ∧
    (main_dispatch RunEvent.normal [pmSample] 7).2.2 ≠ none := by
  refine ⟨rfl, by simp, ?_⟩
  have hstats : isFailure (computeStats [pmSample]) = false := by
    simp [computeStats, pyMean, pyMinQ, pyMaxQ, pyMeanN, pyMinN, pyMaxN, pyDiv,
      isFailure, bind, Except.bind, pure, Except.pure]
  match hcs : computeStats [pmSample] with
  | .error msg => rw [hcs] at hstats; simp [isFailure] at hstats
  | .ok s =>
    show (match print_results [pmSample] 7 with
      | .error _ => ((1 : ℕ), (none : Option Stats), (none : Option CsvFile))
      | .ok r => (0, r.1, r.2)).2.2 ≠ none
    rw [print_results]
    simp only [List.isEmpty_cons, if_false, Bool.false_eq_true]
    rw [show ((do
      let s ← computeStats [pmSample]
      pure (some s, some (export_results_to_csv 7 [pmSample]))) :
        Except String (Option Stats × Option CsvFile))
      = Except.map (fun s => (some s, some (export_results_to_csv 7 [pmSample])))
          (computeStats [pmSample]) from bind_pure_map _ _, hcs]
    simp [Except.map]

/-- The filenames written by `create_test_files` do not depend on the
generated content (nor on anything identifying the calling session). -/
theorem create_test_files_names (r : ℕ → ℕ → ℕ) (w : ℕ → ℕ → ℕ → ℕ) :
    (create_test_files r w).map Prod.fst = test_file_names :=
  rfl

/-- C6 (amended): every session writes exactly the same five corpus
filenames (each exactly once per session, with that session's generated
content), so the filename lists of two distinct concurrent sessions are
identical — equal and non-empty, rather than disjoint. -/
theorem claim6_identical_filenames (r : ℕ → ℕ → ℕ) (w : ℕ → ℕ → ℕ → ℕ)
    (r2 : ℕ → ℕ → ℕ) (w2 : ℕ → ℕ → ℕ → ℕ) :
    (create_test_files r w).map Prod.fst = test_file_names ∧
    (create_test_files r w).map Prod.fst = (create_test_files r2 w2).map Prod.fst ∧
    test_file_names.Nodup ∧ test_file_names ≠ [] := by
  refine ⟨create_test_files_names r w,
    (create_test_files_names r w).trans (create_test_files_names r2 w2).symm, ?_, ?_⟩
  · decide
  · decide

/-- C6 counterexample: the filename sets written by two distinct sessions
(here: two sessions with different random streams) are NOT disjoint — both
contain `data/loadtest_doc_0_1kb.txt` — contradicting the claimed
cross-session disjointness of corpus filenames. -/
theorem claim6_counterexample :
    ¬ ((create_test_files (fun _ _ => 0) (fun _ _ _ => 0)).map Prod.fst).Disjoint
        ((create_test_files (fun _ _ => 1) (fun _ _ _ => 1)).map Prod.fst) := by
  intro hdis
  rw [create_test_files_names, create_test_files_names] at hdis
  exact hdis (a := testFileName 0 1) (by decide) (by decide)

/-- Each generated sentence is non-empty (it ends in `". "`). -/
theorem mkSentence_length_pos (r : ℕ → ℕ) (w : ℕ → ℕ → ℕ) (n : ℕ) :
    0 < (mkSentence r w n).length := by
  simp only [mkSentence, List.length_append, List.length_cons, List.length_nil]
  omega

/-- The sentence loop reaches the target length whenever the iteration
budget covers the remaining deficit (one character per iteration is
enough, since every sentence is non-empty). -/
theorem docLoop_length (r : ℕ → ℕ) (w : ℕ → ℕ → ℕ) (target : ℕ) :
    ∀ (fuel : ℕ) (doc : List Char) (n : ℕ), target ≤ doc.length + fuel →
      target ≤ (docLoop r w target fuel doc n).length := by
  intro fuel
  induction fuel with
  | zero =>
    intro doc n h
    simpa [docLoop] using h
  | succ f ih =>
    intro doc n h
    by_cases hlt : doc.length < target
    · simp only [docLoop, if_pos hlt]
      apply ih
      have hs := mkSentence_length_pos r w n
      rw [List.length_append]
      omega
    · simp only [docLoop, if_neg hlt]
      omega

/-- C8: for every target size `size_kb ≥ 1` and every random stream the
generated document has exactly `size_kb * 1024` characters (all ASCII, so
bytes = characters), is non-empty, and every sentence drawn uses between
5 and 25 vocabulary words; the generator is total (no error conditions). -/
theorem claim8_generator_exact_size (r : ℕ → ℕ) (w : ℕ → ℕ → ℕ) (size_kb : ℕ)
    (h : 1 ≤ size_kb) :
    (create_test_document r w size_kb).length = size_kb * 1024 ∧
    create_test_document r w size_kb ≠ [] ∧
    ∀ n, 5 ≤ pyRandint 5 25 (r n) ∧ pyRandint 5 25 (r n) ≤ 25 := by
  have hlen : (create_test_document r w size_kb).length = size_kb * 1024 := by
    simp only [create_test_document, List.length_take]
    have hd := docLoop_length r w (size_kb * 1024) (size_kb * 1024) [] 0 (by simp)
    omega
  refine ⟨hlen, ?_, fun n => ⟨Nat.le_add_right 5 _, ?_⟩⟩
  · intro hnil
    rw [hnil] at hlen
    simp only [List.length_nil] at hlen
    omega
  · have : r n % 21 < 21 := Nat.mod_lt _ (by norm_num)
    simp only [pyRandint]
    omega

/-- C8 witness: at target size 1 KB with a concrete random stream, the
document has exactly 1024 characters and is non-empty. -/
theorem claim8_witness :
    (create_test_document (fun _ => 0) (fun _ _ => 0) 1).length = 1 * 1024 ∧
    create_test_document (fun _ => 0) (fun _ _ => 0) 1 ≠ [] :=
  ⟨(claim8_generator_exact_size (fun _ => 0) (fun _ _ => 0) 1 (by decide)).1,
   (claim8_generator_exact_size (fun _ => 0) (fun _ _ => 0) 1 (by decide)).2.1⟩

/-- C9: with an empty `RunResult`, `print_results` reports the distinct
no-data outcome at once — no statistic is evaluated and nothing is
exported; with a non-empty `RunResult` every statistics call succeeds
(none of the empty-sequence errors of `mean`/`min`/`max`/division can
arise) and the computed statistics are reported together with the CSV
export. -/
theorem claim9_no_data_guard (ms : List ProcessingMetrics) (now : ℚ) :
    (ms = [] → print_results ms now = .ok (none, none)) ∧
    (ms ≠ [] → isFailure (computeStats ms) = false ∧
      print_results ms now
        = Except.map (fun s => (some s, some (export_results_to_csv now ms)))
            (computeStats ms)) := by
  constructor
  · rintro rfl
    rfl
  · intro hne
    cases ms with
    | nil => exact absurd rfl hne
    | cons m rest =>
      have hok : isFailure (computeStats (m :: rest)) = false := by
        simp [computeStats, pyMean, pyMinQ, pyMaxQ, pyMeanN, pyMinN, pyMaxN, pyDiv,
          isFailure, bind, Except.bind, pure, Except.pure, Nat.cast_add_one_ne_zero]
      refine ⟨hok, ?_⟩
      rw [print_results]
      simp only [List.isEmpty_cons, if_false, Bool.false_eq_true]
      exact bind_pure_map _ _

/-- C9 witness: a singleton `RunResult` makes every statistic succeed and
the results are reported with the export. -/
theorem claim9_witness :
    isFailure (computeStats [pmSample]) = false ∧
    print_results [pmSample] 7
      = Except.map (fun s => (some s, some (export_results_to_csv 7 [pmSample])))
          (computeStats [pmSample]) :=
  (claim9_no_data_guard [pmSample] 7).2 (by simp)

/-- C10: when every request of the run fails, the shared `RunResult` ends
empty and `print_results` returns through its empty-store early exit:
`export_results_to_csv` is never invoked and no results file — not even a
header-only one — is created (the CSV component of the outcome is
`none`). -/
theorem claim10_no_csv_when_empty (N B : ℕ) (env : ℕ → ℕ → ℕ → RequestEnv)
    (now : ℚ)
    (h : ∀ s b j, isFailure (process_document (env s b j)) = true) :
    run_all_sessions N B env = [] ∧
    print_results (run_all_sessions N B env) now = .ok (none, none) := by
  have hrun : run_all_sessions N B env = [] := by
    rw [run_all_sessions]
    have hfold : ∀ (l : List ℕ) (acc : List ProcessingMetrics),
        l.foldl (fun acc s => acc ++ (run_concurrent_session B (env s)).metrics) acc
          = acc := by
      intro l
      induction l with
      | nil => intro acc; rfl
      | cons s ss ih =>
        intro acc
        rw [List.foldl_cons, session_metrics_nil B (env s) (h s), List.append_nil]
        exact ih acc
    exact hfold (List.range N) []
  refine ⟨hrun, ?_⟩
  rw [hrun]
  rfl

/-- C10 witness: a one-session, one-batch run against a server answering
HTTP 500 collects nothing and exports nothing. -/
theorem claim10_witness :
    run_all_sessions 1 1 (fun _ _ _ => failEnv) = [] ∧
    print_results (run_all_sessions 1 1 (fun _ _ _ => failEnv)) 0
      = .ok (none, none) :=
  claim10_no_csv_when_empty 1 1 (fun _ _ _ => failEnv) 0 (fun _ _ _ => rfl)

end R3M

